import Mathlib

/-!
  Rapid Reporter — verification of the session capture pipeline.

  Shallow embedding of the session/note model, the multi-monitor
  region-capture geometry resolver, the region-overlay drag state machine
  and the main-window event handlers of the Rapid Reporter application
  (src/App.tsx and src/components/InstrumentPanel.tsx), together with
  theorems about the behaviours the specification describes.

  Conventions of the embedding: screen coordinates carried by pointer
  events are rationals (browser pointer coordinates may be fractional; the
  overlay rounds only on submission, with JavaScript Math.round semantics),
  the coordinates of a submitted RegionSelection are integers, epoch-ms
  instants are integers, and a fallible external call (a Tauri invoke that
  may reject) is an Option, with none for the rejection.
-/

namespace RapidReporter

/-- The note categories of NoteType in InstrumentPanel.tsx. -/
inductive NoteType where
  | test
  | bug
  | idea
  | observation
  | warning
  | question
  | snippet
  | screenshot
deriving DecidableEq, Fintype

/-- A recorded note (Note in InstrumentPanel.tsx): identifier, epoch-ms
timestamp, category, and free text (a file path for screenshot notes). -/
structure Note where
  id : String
  timestamp : Int
  type : NoteType
  text : String
deriving DecidableEq

/-- One exploratory session (Session in App.tsx).  durationMinutes is none
for the TS null, meaning no limit. -/
structure Session where
  testerName : String
  charter : String
  durationMinutes : Option Nat
  startedAt : Int
  notes : List Note
deriving DecidableEq

/-- A submitted capture rectangle (RegionSelection in App.tsx), in global
desktop coordinates.  The overlay submits integer coordinates (it rounds
before invoking submit_region_selection) and forwards the device pixel
ratio unrounded. -/
structure RegionSelection where
  x : Int
  y : Int
  width : Int
  height : Int
  devicePixelRatio : ℚ
deriving DecidableEq

/-- A monitor position in global desktop coordinates. -/
structure MonitorPos where
  x : Int
  y : Int
deriving DecidableEq

/-- A monitor size in global desktop units. -/
structure MonitorSize where
  width : Int
  height : Int
deriving DecidableEq

/-- A screenshotable display as returned by getScreenshotableMonitors.
The model fixes monitors to well-formed records with numeric position and
size fields, so the coalescing fallbacks (?? 0) and the typeof checks of
the source are identities on this universe. -/
structure Monitor where
  id : Int
  position : MonitorPos
  size : MonitorSize
deriving DecidableEq

/-- The containment test inside pickMonitor (App.tsx): the top-left corner
of the selection lies within the half-open monitor bounds,
mx ≤ x < mx + mw and my ≤ y < my + mh. -/
def monitorContains (m : Monitor) (sel : RegionSelection) : Bool :=
  decide (m.position.x ≤ sel.x) && decide (sel.x < m.position.x + m.size.width) &&
  decide (m.position.y ≤ sel.y) && decide (sel.y < m.position.y + m.size.height)

/-- pickMonitor from the region-selected listener in App.tsx: the first
monitor, in list order, whose bounds contain the top-left corner of the
selection, else the first monitor of the list; in both cases paired with
the origin (mx, my) of the chosen monitor.  The result is none exactly on
an empty list, which the caller has already rejected. -/
def pickMonitor (sel : RegionSelection) (monitors : List Monitor) :
    Option (Monitor × Int × Int) :=
  match monitors.find? (fun m => monitorContains m sel) with
  | some m => some (m, m.position.x, m.position.y)
  | none => monitors.head?.map (fun m => (m, m.position.x, m.position.y))

/-- The crop rectangle handed to the crop_screenshot command
(selectionForCrop in App.tsx): the selection translated by subtracting the
origin of the chosen monitor. -/
def selectionForCrop (sel : RegionSelection) (mx my : Int) : RegionSelection :=
  { sel with x := sel.x - mx, y := sel.y - my }

/-- handleCommit in App.tsx: prepend the note to the session note list and
truncate to the first 200 entries; with no active session the state is
unchanged. -/
def handleCommit (note : Note) (s : Option Session) : Option Session :=
  s.map fun prev => { prev with notes := (note :: prev.notes).take 200 }

/-- The session state after committing the given notes in order, starting
from the given session (repeated handleCommit, the only mutation of a
session after start). -/
def commitAll (s : Session) (commits : List Note) : Option Session :=
  commits.foldl (fun os n => handleCommit n os) (some s)

/-- JavaScript String.prototype.trim: strip leading and trailing
whitespace. -/
def jsTrim (s : String) : String :=
  ⟨((s.data.dropWhile Char.isWhitespace).reverse.dropWhile Char.isWhitespace).reverse⟩

/-- commit in InstrumentPanel.tsx: trim the typed text; an empty trimmed
string is falsy, so nothing is committed and onCommit is not invoked
(result none); otherwise the note handed to onCommit is produced, with
freshId and now standing for crypto.randomUUID() and Date.now(). -/
def commit (text : String) (noteType : NoteType) (freshId : String) (now : Int) :
    Option Note :=
  let trimmed := jsTrim text
  if trimmed = "" then none
  else some { id := freshId, timestamp := now, type := noteType, text := trimmed }

/-- NOTE_TYPE_ORDER in InstrumentPanel.tsx: the cyclic order of the
typed-entry note types.  The screenshot type is deliberately absent. -/
def NOTE_TYPE_ORDER : List NoteType :=
  [.test, .bug, .idea, .observation, .warning, .question, .snippet]

/-- JavaScript Array.prototype.indexOf: index of the first occurrence, or
-1 when absent. -/
def jsIndexOf (l : List NoteType) (t : NoteType) : Int :=
  match l.findIdx? (fun x => x = t) with
  | some i => (i : Int)
  | none => -1

/-- cycle in InstrumentPanel.tsx: step the current note type by delta
through NOTE_TYPE_ORDER, wrapping modulo the list length.  The final list
access is total in the source because the computed index is always in
range; the getD default is never reached. -/
def cycle (t : NoteType) (delta : Int) : NoteType :=
  let len : Int := (NOTE_TYPE_ORDER.length : Int)
  let i := jsIndexOf NOTE_TYPE_ORDER t
  let n := (i + delta + len) % len
  NOTE_TYPE_ORDER.getD n.toNat .test

/-- One keyboard interaction of the typed-entry panel that changes the
note type: ArrowUp / ArrowDown cycling, or an Alt+1..6 quick pick
(onKeyDown in InstrumentPanel.tsx). -/
inductive KeyAction where
  | arrowUp
  | arrowDown
  | alt1
  | alt2
  | alt3
  | alt4
  | alt5
  | alt6
deriving DecidableEq, Fintype

/-- The note-type transition of onKeyDown: ArrowUp is cycle (-1),
ArrowDown is cycle 1, and Alt+1..6 set the corresponding type directly. -/
def keyStep (t : NoteType) (a : KeyAction) : NoteType :=
  match a with
  | .arrowUp => cycle t (-1)
  | .arrowDown => cycle t 1
  | .alt1 => .test
  | .alt2 => .bug
  | .alt3 => .idea
  | .alt4 => .observation
  | .alt5 => .warning
  | .alt6 => .question

/-- The note type selected after a sequence of keyboard interactions,
starting from the initial useState value, the test type. -/
def noteTypeAfter (acts : List KeyAction) : NoteType :=
  acts.foldl keyStep .test

/-- The pointer-drag start recorded by the overlay (startRef in
RegionOverlay, App.tsx): local (client) and global (screen) coordinates
of the initial press. -/
structure DragStart where
  clientX : ℚ
  clientY : ℚ
  screenX : ℚ
  screenY : ℚ
deriving DecidableEq

/-- The selection rectangle drawn by the overlay, in local coordinates. -/
structure OverlayRect where
  left : ℚ
  top : ℚ
  width : ℚ
  height : ℚ
deriving DecidableEq

/-- The mutable state of the RegionOverlay component: the dragging flag,
startRef, the drawn rect, and the single-shot submittedRef guard. -/
structure OverlayState where
  dragging : Bool
  start : Option DragStart
  rect : Option OverlayRect
  submitted : Bool
deriving DecidableEq

/-- The overlay state on mount: no drag in progress, nothing submitted. -/
def initialOverlay : OverlayState :=
  { dragging := false, start := none, rect := none, submitted := false }

/-- A pointer event as seen by the overlay handlers: button number plus
local (client) and global (screen) coordinates. -/
structure PointerEvent where
  button : Int
  clientX : ℚ
  clientY : ℚ
  screenX : ℚ
  screenY : ℚ
deriving DecidableEq

/-- normalize in RegionOverlay: the axis-aligned rectangle spanned by two
points, with left and top the minima and width and height the coordinate
differences. -/
def normalize (a b : ℚ × ℚ) : OverlayRect :=
  let left := min a.1 b.1
  let top := min a.2 b.2
  let right := max a.1 b.1
  let bottom := max a.2 b.2
  { left := left, top := top, width := right - left, height := bottom - top }

/-- onPointerDown in RegionOverlay: a non-primary button is ignored; a
primary press re-arms the submit guard, records the drag start in both
coordinate systems, begins dragging and seeds the drawn rect. -/
def onPointerDown (st : OverlayState) (e : PointerEvent) : OverlayState :=
  if e.button ≠ 0 then st
  else
    { st with
      submitted := false
      start := some { clientX := e.clientX, clientY := e.clientY,
                      screenX := e.screenX, screenY := e.screenY }
      dragging := true
      rect := some { left := e.clientX, top := e.clientY, width := 0, height := 0 } }

/-- onPointerMove in RegionOverlay: while dragging with a recorded start,
redraw the rect normalized between the start and the current position in
local coordinates; otherwise ignore the event. -/
def onPointerMove (st : OverlayState) (e : PointerEvent) : OverlayState :=
  if st.dragging = false then st
  else
    match st.start with
    | none => st
    | some s =>
      { st with rect := some (normalize (s.clientX, s.clientY) (e.clientX, e.clientY)) }

/-- JavaScript Math.round: round half toward positive infinity. -/
def jsRound (q : ℚ) : Int := Rat.floor (q + 1 / 2)

/-- onPointerUp in RegionOverlay, with the control flow of the source: the
submittedRef guard rejects a duplicate pointer-up outright; without a drag
in progress the event is ignored; the guard is then set before any await,
the drag is normalized from the two endpoint screen coordinates, a drag
under 5 units in either dimension is discarded with the guard re-armed,
and otherwise the rounded rectangle is submitted.  submitOk tells whether
the submit_region_selection invoke resolves; a rejection re-arms the
guard.  The submitted selection, when there is one, is returned alongside
the new state. -/
def onPointerUp (dpr : ℚ) (st : OverlayState) (e : PointerEvent) (submitOk : Bool) :
    OverlayState × Option RegionSelection :=
  if st.submitted then (st, none)
  else if st.dragging = false then (st, none)
  else
    match st.start with
    | none => (st, none)
    | some s =>
      let st := { st with submitted := true, dragging := false }
      let x1 := min s.screenX e.screenX
      let y1 := min s.screenY e.screenY
      let x2 := max s.screenX e.screenX
      let y2 := max s.screenY e.screenY
      let width := max 0 (x2 - x1)
      let height := max 0 (y2 - y1)
      if width < 5 ∨ height < 5 then
        ({ st with submitted := false, rect := none, start := none }, none)
      else if submitOk then
        ({ st with rect := none, start := none },
         some { x := jsRound x1, y := jsRound y1,
                width := jsRound width, height := jsRound height,
                devicePixelRatio := dpr })
      else
        ({ st with submitted := false, rect := none, start := none }, none)

/-- The main-window state relevant to capture and export: the active
session, the recap and end-session dialog flags, the surfaced export
error and the isRegionCapturing flag. -/
structure MainState where
  session : Option Session
  recapOpen : Bool
  endConfirmOpen : Bool
  exportError : Option String
  isRegionCapturing : Bool
deriving DecidableEq

/-- The first statement of the region-selected listener in App.tsx:
setIsRegionCapturing(false).  The flag is cleared as soon as the overlay
responds, before any step of the crop pipeline runs. -/
def regionSelectedReceive (st : MainState) : MainState :=
  { st with isRegionCapturing := false }

/-- The external collaborators awaited by the region-selected listener:
monitor enumeration, the per-monitor screenshot, and the crop_screenshot
command.  none models the corresponding call rejecting (throwing). -/
structure PipelineEnv where
  monitors : Option (List Monitor)
  screenshot : Int → Option String
  crop : String → RegionSelection → Option String

/-- The body of the try block of the region-selected listener: an
exception at monitor enumeration, screenshot or crop is error; an early
return without a note (no monitors available, or no valid monitor id) is
ok none; full success is ok with the screenshot note that handleCommit
receives. -/
def pipelineOutcome (sel : RegionSelection) (env : PipelineEnv)
    (freshId : String) (now : Int) : Except Unit (Option Note) :=
  match env.monitors with
  | none => .error ()
  | some monitors =>
    if monitors.isEmpty then .ok none
    else
      match pickMonitor sel monitors with
      | none => .ok none
      | some (m, mx, my) =>
        match env.screenshot m.id with
        | none => .error ()
        | some fullPath =>
          match env.crop fullPath (selectionForCrop sel mx my) with
          | none => .error ()
          | some croppedPath =>
            .ok (some { id := freshId, timestamp := now,
                        type := .screenshot, text := croppedPath })

/-- The whole region-selected listener: clear the capturing flag on
receipt, bail out when no session is active, run the pipeline, commit the
note on full success, swallow an exception (alert only, no state change),
and clear the flag again in the finally block. -/
def regionSelectedHandler (sel : RegionSelection) (env : PipelineEnv)
    (freshId : String) (now : Int) (st : MainState) : MainState :=
  let st1 := regionSelectedReceive st
  match st1.session with
  | none => st1
  | some _ =>
    let st2 :=
      match pipelineOutcome sel env freshId now with
      | .ok (some note) => { st1 with session := handleCommit note st1.session }
      | .ok none => st1
      | .error _ => st1
    { st2 with isRegionCapturing := false }

/-- openRegionCapture in App.tsx.  A no-op while isRegionCapturing is set;
otherwise the flag is set and the platform branch runs.  On Windows the OS
snipping flow runs inline: a returned path is committed when a session is
active, a none path (timeout or cancel) is a no-op, and the finally block
clears the flag.  On other platforms the overlay window is opened and the
flag stays set until the overlay responds; when opening throws, the catch
clears the flag. -/
def openRegionCapture (st : MainState) (platform : String)
    (snip : Option String) (overlayOk : Bool) (freshId : String) (now : Int) :
    MainState :=
  if st.isRegionCapturing then st
  else
    let st := { st with isRegionCapturing := true }
    if platform = "windows" then
      let st :=
        match snip, st.session with
        | some path, some _ =>
          let snipNote : Note :=
            { id := freshId, timestamp := now, type := .screenshot, text := path }
          { st with session := handleCommit snipNote st.session }
        | _, _ => st
      { st with isRegionCapturing := false }
    else if overlayOk then st
    else { st with isRegionCapturing := false }

/-- performEndSession in App.tsx: with no session the click is ignored;
when the export invoke rejects, the error is surfaced, the dialog closes
and nothing else changes; when it resolves, the UI resets to the start
screen and the session is discarded. -/
def performEndSession (st : MainState) (exportOk : Bool) : MainState :=
  match st.session with
  | none => st
  | some _ =>
    if exportOk then
      { st with endConfirmOpen := false, recapOpen := false,
                isRegionCapturing := false, session := none }
    else
      { st with
        exportError :=
          some "Export failed. Please check the console for details. Your session is still active."
        endConfirmOpen := false }

/-! Helper lemmas shared by the claim theorems. -/

/-- A successful find? splits the list at the first hit: everything before
the hit fails the test. -/
theorem find?_eq_some_split {α : Type} {p : α → Bool} {a : α} :
    ∀ {l : List α}, l.find? p = some a →
      p a = true ∧ ∃ pre post, l = pre ++ a :: post ∧ ∀ x ∈ pre, p x = false := by
  intro l h
  induction l with
  | nil => simp [List.find?] at h
  | cons hd tl ih =>
    rw [List.find?_cons] at h
    cases hp : p hd with
    | true =>
      simp only [hp] at h
      cases h
      exact ⟨hp, [], tl, rfl, by simp⟩
    | false =>
      simp only [hp] at h
      obtain ⟨hpa, pre, post, hsplit, hpre⟩ := ih h
      refine ⟨hpa, hd :: pre, post, by rw [hsplit, List.cons_append], ?_⟩
      intro x hx
      rcases List.mem_cons.mp hx with rfl | hx2
      · exact hp
      · exact hpre x hx2

/-- Truncating the appended tail first does not change a truncated
append. -/
theorem take_append_take {α : Type} :
    ∀ (j k : ℕ) (l a : List α), j ≤ k →
      (l ++ a.take k).take j = (l ++ a).take j := by
  intro j k l a
  induction l generalizing j with
  | nil =>
    intro hjk
    simp [List.take_take, Nat.min_eq_left hjk]
  | cons x l ih =>
    intro hjk
    cases j with
    | zero => simp
    | succ j2 =>
      simp only [List.cons_append, List.take_succ_cons]
      rw [ih j2 (Nat.le_of_succ_le hjk)]

/-- Closed form of repeated handleCommit: starting from a session whose
note list is within the cap, the note list after committing a batch is the
reversed batch prepended to the old notes, truncated to 200. -/
theorem commitAll_closed_form :
    ∀ (commits : List Note) (s : Session), s.notes.length ≤ 200 →
      commitAll s commits =
        some { s with notes := (commits.reverse ++ s.notes).take 200 } := by
  intro commits
  induction commits with
  | nil =>
    intro s hs
    simp [commitAll, List.take_of_length_le hs]
  | cons n cs ih =>
    intro s hs
    have hlen : ((n :: s.notes).take 200).length ≤ 200 := by
      simp [List.length_take]
    have hstep : commitAll s (n :: cs) =
        commitAll { s with notes := (n :: s.notes).take 200 } cs := rfl
    rw [hstep, ih _ hlen]
    have hnotes : (cs.reverse ++ ((n :: s.notes).take 200)).take 200 =
        ((n :: cs).reverse ++ s.notes).take 200 := by
      rw [take_append_take 200 200 _ _ (le_refl 200)]
      simp [List.reverse_cons, List.append_assoc]
    simp only [hnotes]

/-! Concrete values used by the witnesses: the worked example of the
specification (selection (150,10) over two monitors) and a small session
and pointer gesture. -/

/-- The worked selection of the specification, top-left corner (150,10). -/
def exSel : RegionSelection :=
  { x := 150, y := 10, width := 40, height := 40, devicePixelRatio := 1 }

/-- Monitor id 1 at origin (0,0), 100 by 100. -/
def exMon1 : Monitor := { id := 1, position := ⟨0, 0⟩, size := ⟨100, 100⟩ }

/-- Monitor id 2 at origin (100,0), 200 by 200. -/
def exMon2 : Monitor := { id := 2, position := ⟨100, 0⟩, size := ⟨200, 200⟩ }

/-- A freshly started session with an empty note list. -/
def exSession : Session :=
  { testerName := "Del", charter := "My charter", durationMinutes := some 60,
    startedAt := 0, notes := [] }

/-- A sample note used by the commit witnesses. -/
def exNote (k : Nat) : Note :=
  { id := toString k, timestamp := (k : Int), type := .observation, text := "note" }

/-! C1 — monitor resolution. -/

/-- Claim C1: for every submitted selection and non-empty monitor list the
resolver returns the first monitor in list order whose half-open bounds
contain the top-left corner of the selection, and otherwise falls back to
the first monitor of the list; the crop rectangle is the selection
translated by subtracting the origin of the chosen monitor. -/
theorem pickMonitor_first_or_fallback
    (sel : RegionSelection) (monitors : List Monitor) (h : monitors ≠ []) :
    ∃ m, pickMonitor sel monitors = some (m, m.position.x, m.position.y) ∧
      ((monitorContains m sel = true ∧
        ∃ pre post, monitors = pre ++ m :: post ∧
          ∀ m2 ∈ pre, monitorContains m2 sel = false) ∨
       ((∀ m2 ∈ monitors, monitorContains m2 sel = false) ∧
        monitors.head? = some m)) ∧
      (selectionForCrop sel m.position.x m.position.y).x = sel.x - m.position.x ∧
      (selectionForCrop sel m.position.x m.position.y).y = sel.y - m.position.y := by
  unfold pickMonitor
  cases hf : monitors.find? (fun m => monitorContains m sel) with
  | some m =>
    refine ⟨m, rfl, ?_, rfl, rfl⟩
    obtain ⟨hp, pre, post, hsplit, hpre⟩ := find?_eq_some_split hf
    exact Or.inl ⟨hp, pre, post, hsplit, hpre⟩
  | none =>
    have hall := List.find?_eq_none.mp hf
    cases monitors with
    | nil => exact absurd rfl h
    | cons m ms =>
      refine ⟨m, rfl, Or.inr ⟨?_, rfl⟩, rfl, rfl⟩
      intro m2 hm2
      simpa using hall m2 hm2

/-- Witness for C1, at the worked example of the specification: the list
is non-empty, the resolver picks monitor id 2 with origin (100,0), and the
local selection is (50,10). -/
theorem pickMonitor_first_or_fallback_witness :
    pickMonitor exSel [exMon1, exMon2] = some (exMon2, 100, 0) ∧
    (selectionForCrop exSel 100 0).x = 50 ∧
    (selectionForCrop exSel 100 0).y = 10 ∧
    (∃ m, pickMonitor exSel [exMon1, exMon2] = some (m, m.position.x, m.position.y) ∧
      ((monitorContains m exSel = true ∧
        ∃ pre post, [exMon1, exMon2] = pre ++ m :: post ∧
          ∀ m2 ∈ pre, monitorContains m2 exSel = false) ∨
       ((∀ m2 ∈ [exMon1, exMon2], monitorContains m2 exSel = false) ∧
        ([exMon1, exMon2] : List Monitor).head? = some m)) ∧
      (selectionForCrop exSel m.position.x m.position.y).x = exSel.x - m.position.x ∧
      (selectionForCrop exSel m.position.x m.position.y).y = exSel.y - m.position.y) :=
  ⟨by with_unfolding_all decide, by with_unfolding_all decide,
   by with_unfolding_all decide,
   pickMonitor_first_or_fallback exSel [exMon1, exMon2] (by simp)⟩

/-! C3 — note list prepend and cap. -/

/-- Claim C3: committing a note prepends it to the session note list and
truncates to 200 entries, so starting from a freshly started session
(empty note list) the notes after any batch of commits are the reversed
batch (newest first, oldest dropped beyond the cap) truncated to 200, and
the length never exceeds 200. -/
theorem handleCommit_newest_first_cap
    (note : Note) (s : Session) (commits : List Note) (s0 : Session)
    (h0 : s0.notes = []) :
    handleCommit note (some s) =
      some { s with notes := (note :: s.notes).take 200 } ∧
    commitAll s0 commits = some { s0 with notes := commits.reverse.take 200 } ∧
    ∃ s1, commitAll s0 commits = some s1 ∧ s1.notes.length ≤ 200 := by
  have hcf := commitAll_closed_form commits s0 (by simp [h0])
  rw [h0] at hcf
  simp only [List.append_nil] at hcf
  refine ⟨rfl, hcf, ⟨_, hcf, ?_⟩⟩
  simp [List.length_take]

/-- Witness for C3 at a concrete batch: committing notes 1, 2, 3 into a
fresh session leaves them newest-first. -/
theorem handleCommit_newest_first_cap_witness :
    commitAll exSession [exNote 1, exNote 2, exNote 3] =
      some { exSession with notes := [exNote 3, exNote 2, exNote 1] } ∧
    handleCommit (exNote 1) (some exSession) =
      some { exSession with notes := [exNote 1] } :=
  ⟨by
    have h := (handleCommit_newest_first_cap (exNote 1) exSession
      [exNote 1, exNote 2, exNote 3] exSession rfl).2.1
    simpa using h,
   by
    have h := (handleCommit_newest_first_cap (exNote 1) exSession
      [exNote 1] exSession rfl).1
    simpa using h⟩

/-! C8 — typed-entry commit trims and rejects blank input. -/

/-- Claim C8: every note produced by the typed-entry commit has text equal
to the trimmed input and that text is non-empty; an input that is only
whitespace commits nothing (onCommit is never invoked). -/
theorem commit_trimmed_nonempty
    (text : String) (ty : NoteType) (freshId : String) (now : Int) :
    (∀ n, commit text ty freshId now = some n →
      n.text = jsTrim text ∧ n.text ≠ "") ∧
    ((∀ c ∈ text.data, c.isWhitespace = true) →
      commit text ty freshId now = none) := by
  constructor
  · intro n hn
    unfold commit at hn
    by_cases he : jsTrim text = ""
    · simp [he] at hn
    · simp only [he, if_false] at hn
      cases hn
      exact ⟨rfl, he⟩
  · intro hws
    have hd : text.data.dropWhile Char.isWhitespace = [] := by
      rw [List.dropWhile_eq_nil_iff]
      intro c hc
      exact hws c hc
    have ht : jsTrim text = "" := by
      unfold jsTrim
      rw [hd]
      rfl
    unfold commit
    rw [ht]
    rfl

/-- Witness for C8: a whitespace-only input commits nothing, and a padded
input commits its trimmed text. -/
theorem commit_trimmed_nonempty_witness :
    commit "   " .bug "id1" 0 = none ∧
    (∀ n, commit "  hi  " .bug "id1" 0 = some n →
      n.text = jsTrim "  hi  " ∧ n.text ≠ "") ∧
    commit "  hi  " .bug "id1" 0 =
      some { id := "id1", timestamp := 0, type := .bug, text := "hi" } :=
  ⟨(commit_trimmed_nonempty "   " .bug "id1" 0).2 (by decide),
   (commit_trimmed_nonempty "  hi  " .bug "id1" 0).1,
   by with_unfolding_all decide⟩

/-! C10 — the typed-entry note type never leaves the cyclic order. -/

/-- Claim C10: under every sequence of keyboard interactions (arrow
cycling and Alt+1..6 quick picks) the typed-entry note type stays within
NOTE_TYPE_ORDER; in particular it is never the screenshot type, and no
note produced by the typed-entry commit path can have the screenshot
type. -/
theorem noteType_confined (acts : List KeyAction) :
    noteTypeAfter acts ∈ NOTE_TYPE_ORDER ∧
    noteTypeAfter acts ≠ NoteType.screenshot ∧
    ∀ text freshId now n,
      commit text (noteTypeAfter acts) freshId now = some n →
      n.type ≠ NoteType.screenshot := by
  have key : ∀ (t : NoteType) (a : KeyAction),
      t ∈ NOTE_TYPE_ORDER → keyStep t a ∈ NOTE_TYPE_ORDER := by decide
  have mem : ∀ (l : List KeyAction) (t : NoteType), t ∈ NOTE_TYPE_ORDER →
      l.foldl keyStep t ∈ NOTE_TYPE_ORDER := by
    intro l
    induction l with
    | nil => intro t ht; exact ht
    | cons a as ih => intro t ht; exact ih _ (key t a ht)
  have hmem : noteTypeAfter acts ∈ NOTE_TYPE_ORDER := mem acts .test (by decide)
  have hns : noteTypeAfter acts ≠ NoteType.screenshot := by
    intro he
    rw [he] at hmem
    revert hmem
    decide
  refine ⟨hmem, hns, ?_⟩
  intro text freshId now n hn
  unfold commit at hn
  by_cases he : jsTrim text = ""
  · simp [he] at hn
  · simp only [he, if_false] at hn
    cases hn
    exact hns

/-- Witness for C10 at a concrete interaction sequence: two cycles and a
quick pick leave the type inside the order. -/
theorem noteType_confined_witness :
    noteTypeAfter [.arrowUp, .alt3, .arrowDown] ∈ NOTE_TYPE_ORDER ∧
    noteTypeAfter [.arrowUp, .alt3, .arrowDown] ≠ NoteType.screenshot ∧
    noteTypeAfter [.arrowUp, .alt3, .arrowDown] = NoteType.observation :=
  ⟨(noteType_confined [.arrowUp, .alt3, .arrowDown]).1,
   (noteType_confined [.arrowUp, .alt3, .arrowDown]).2.1,
   by with_unfolding_all decide⟩

/-! Overlay gesture lemmas: the three terminal branches of onPointerUp on
a live drag. -/

/-- On a live unsubmitted drag whose span clears the 5-unit threshold in
both dimensions, a resolving pointer-up submits the rounded normalized
rectangle and leaves the gesture marked submitted. -/
theorem onPointerUp_submit_eq
    (dpr : ℚ) (st : OverlayState) (e : PointerEvent) (s : DragStart)
    (hsub : st.submitted = false) (hdrag : st.dragging = true)
    (hstart : st.start = some s)
    (hw : 5 ≤ max s.screenX e.screenX - min s.screenX e.screenX)
    (hh : 5 ≤ max s.screenY e.screenY - min s.screenY e.screenY) :
    onPointerUp dpr st e true =
      ({ dragging := false, start := none, rect := none, submitted := true },
       some { x := jsRound (min s.screenX e.screenX),
              y := jsRound (min s.screenY e.screenY),
              width := jsRound (max s.screenX e.screenX - min s.screenX e.screenX),
              height := jsRound (max s.screenY e.screenY - min s.screenY e.screenY),
              devicePixelRatio := dpr }) := by
  have h0x : (0 : ℚ) ≤ max s.screenX e.screenX - min s.screenX e.screenX :=
    sub_nonneg.mpr min_le_max
  have h0y : (0 : ℚ) ≤ max s.screenY e.screenY - min s.screenY e.screenY :=
    sub_nonneg.mpr min_le_max
  have hcond : ¬(max s.screenX e.screenX - min s.screenX e.screenX < 5 ∨
      max s.screenY e.screenY - min s.screenY e.screenY < 5) := by
    rw [not_or, not_lt, not_lt]
    exact ⟨hw, hh⟩
  unfold onPointerUp
  rw [hsub, hdrag, hstart]
  simp only [Bool.false_eq_true, Bool.true_eq_false, if_false,
             max_eq_right h0x, max_eq_right h0y, if_neg hcond]
  simp [initialOverlay]

/-- On a live unsubmitted drag below the 5-unit threshold in either
dimension, pointer-up submits nothing and resets the overlay to its
initial state: guard cleared, no drag, no rect. -/
theorem onPointerUp_discard_eq
    (dpr : ℚ) (st : OverlayState) (e : PointerEvent) (ok : Bool) (s : DragStart)
    (hsub : st.submitted = false) (hdrag : st.dragging = true)
    (hstart : st.start = some s)
    (hsmall : max s.screenX e.screenX - min s.screenX e.screenX < 5 ∨
              max s.screenY e.screenY - min s.screenY e.screenY < 5) :
    onPointerUp dpr st e ok = (initialOverlay, none) := by
  have h0x : (0 : ℚ) ≤ max s.screenX e.screenX - min s.screenX e.screenX :=
    sub_nonneg.mpr min_le_max
  have h0y : (0 : ℚ) ≤ max s.screenY e.screenY - min s.screenY e.screenY :=
    sub_nonneg.mpr min_le_max
  unfold onPointerUp
  rw [hsub, hdrag, hstart]
  simp only [Bool.false_eq_true, Bool.true_eq_false, if_false,
             max_eq_right h0x, max_eq_right h0y, if_pos hsmall]
  simp [initialOverlay]

/-- On a live unsubmitted drag above the threshold whose submission invoke
rejects, pointer-up delivers nothing and re-arms the guard, resetting the
overlay to its initial state. -/
theorem onPointerUp_fail_eq
    (dpr : ℚ) (st : OverlayState) (e : PointerEvent) (s : DragStart)
    (hsub : st.submitted = false) (hdrag : st.dragging = true)
    (hstart : st.start = some s)
    (hw : 5 ≤ max s.screenX e.screenX - min s.screenX e.screenX)
    (hh : 5 ≤ max s.screenY e.screenY - min s.screenY e.screenY) :
    onPointerUp dpr st e false = (initialOverlay, none) := by
  have h0x : (0 : ℚ) ≤ max s.screenX e.screenX - min s.screenX e.screenX :=
    sub_nonneg.mpr min_le_max
  have h0y : (0 : ℚ) ≤ max s.screenY e.screenY - min s.screenY e.screenY :=
    sub_nonneg.mpr min_le_max
  have hcond : ¬(max s.screenX e.screenX - min s.screenX e.screenX < 5 ∨
      max s.screenY e.screenY - min s.screenY e.screenY < 5) := by
    rw [not_or, not_lt, not_lt]
    exact ⟨hw, hh⟩
  unfold onPointerUp
  rw [hsub, hdrag, hstart]
  simp only [Bool.false_eq_true, Bool.true_eq_false, if_false,
             max_eq_right h0x, max_eq_right h0y, if_neg hcond]
  simp [initialOverlay]

/-- A primary-button pointer-down puts the overlay into a live unsubmitted
drag started at the event coordinates. -/
theorem onPointerDown_zero_eq (st : OverlayState) (d : PointerEvent)
    (hb : d.button = 0) :
    onPointerDown st d =
      { dragging := true,
        start := some { clientX := d.clientX, clientY := d.clientY,
                        screenX := d.screenX, screenY := d.screenY },
        rect := some { left := d.clientX, top := d.clientY, width := 0, height := 0 },
        submitted := false } := by
  unfold onPointerDown
  rw [if_neg (by simp [hb])]

/-! C2 — pointer-up normalization and the 5-unit threshold. -/

/-- Claim C2: pointer-up on a live drag normalizes the two endpoints into
the rectangle with left and top the coordinate minima and width and height
the absolute differences, in global screen coordinates; when the span
clears the threshold and the invoke resolves, the rounded rectangle is
submitted; a drag under 5 units in either dimension is discarded without
submitting anything and the overlay is reset to its initial re-armed
state, from which a later above-threshold drag still submits. -/
theorem onPointerUp_normalize_and_threshold
    (dpr : ℚ) (st : OverlayState) (e : PointerEvent) (ok : Bool) (s : DragStart)
    (hsub : st.submitted = false) (hdrag : st.dragging = true)
    (hstart : st.start = some s) :
    (5 ≤ max s.screenX e.screenX - min s.screenX e.screenX →
     5 ≤ max s.screenY e.screenY - min s.screenY e.screenY →
     ok = true →
      (onPointerUp dpr st e ok).2 =
        some { x := jsRound (min s.screenX e.screenX),
               y := jsRound (min s.screenY e.screenY),
               width := jsRound (max s.screenX e.screenX - min s.screenX e.screenX),
               height := jsRound (max s.screenY e.screenY - min s.screenY e.screenY),
               devicePixelRatio := dpr }) ∧
    (max s.screenX e.screenX - min s.screenX e.screenX < 5 ∨
     max s.screenY e.screenY - min s.screenY e.screenY < 5 →
      (onPointerUp dpr st e ok).2 = none ∧
      (onPointerUp dpr st e ok).1 = initialOverlay ∧
      ∀ (d u : PointerEvent), d.button = 0 →
        5 ≤ max d.screenX u.screenX - min d.screenX u.screenX →
        5 ≤ max d.screenY u.screenY - min d.screenY u.screenY →
        (onPointerUp dpr (onPointerDown (onPointerUp dpr st e ok).1 d) u true).2 =
          some { x := jsRound (min d.screenX u.screenX),
                 y := jsRound (min d.screenY u.screenY),
                 width := jsRound (max d.screenX u.screenX - min d.screenX u.screenX),
                 height := jsRound (max d.screenY u.screenY - min d.screenY u.screenY),
                 devicePixelRatio := dpr }) := by
  constructor
  · intro hw hh hok
    subst hok
    rw [onPointerUp_submit_eq dpr st e s hsub hdrag hstart hw hh]
  · intro hsmall
    have hdisc := onPointerUp_discard_eq dpr st e ok s hsub hdrag hstart hsmall
    rw [hdisc]
    refine ⟨rfl, rfl, ?_⟩
    intro d u hb hw hh
    rw [onPointerDown_zero_eq initialOverlay d hb]
    rw [onPointerUp_submit_eq dpr _ u
      { clientX := d.clientX, clientY := d.clientY,
        screenX := d.screenX, screenY := d.screenY }
      rfl rfl rfl hw hh]

/-- Witness for C2: a 3 by 2 drag (from (10,10) to (13,12)) submits
nothing and resets the overlay, and a later 30 by 20 drag from the reset
state submits. -/
theorem onPointerUp_normalize_and_threshold_witness :
    (onPointerUp 1
      { dragging := true,
        start := some { clientX := 0, clientY := 0, screenX := 10, screenY := 10 },
        rect := some { left := 0, top := 0, width := 0, height := 0 },
        submitted := false }
      { button := 0, clientX := 3, clientY := 2, screenX := 13, screenY := 12 }
      true).2 = none ∧
    (onPointerUp 1
      { dragging := true,
        start := some { clientX := 0, clientY := 0, screenX := 10, screenY := 10 },
        rect := some { left := 0, top := 0, width := 0, height := 0 },
        submitted := false }
      { button := 0, clientX := 3, clientY := 2, screenX := 13, screenY := 12 }
      true).1 = initialOverlay := by
  have h := (onPointerUp_normalize_and_threshold 1
    { dragging := true,
      start := some { clientX := 0, clientY := 0, screenX := 10, screenY := 10 },
      rect := some { left := 0, top := 0, width := 0, height := 0 },
      submitted := false }
    { button := 0, clientX := 3, clientY := 2, screenX := 13, screenY := 12 }
    true
    { clientX := 0, clientY := 0, screenX := 10, screenY := 10 }
    rfl rfl rfl).2 (by with_unfolding_all decide)
  exact ⟨h.1, h.2.1⟩

/-! C7 — the single-shot submit guard. -/

/-- Claim C7: once a pointer-up has marked the gesture submitted, any
further pointer-up is ignored outright (state unchanged, nothing
delivered); pointer-move never touches the guard; a non-primary
pointer-down is ignored; and starting from a live unsubmitted drag the
guard ends cleared exactly when the drag was below threshold or the
submission invoke rejected — a primary pointer-down also re-arms it. -/
theorem submit_guard_single_shot
    (dpr : ℚ) (st : OverlayState) (e : PointerEvent) (ok : Bool)
    (h : st.submitted = true) :
    onPointerUp dpr st e ok = (st, none) ∧
    (∀ d : PointerEvent, d.button = 0 → (onPointerDown st d).submitted = false) ∧
    (∀ d : PointerEvent, ¬d.button = 0 → onPointerDown st d = st) ∧
    (∀ m : PointerEvent, (onPointerMove st m).submitted = st.submitted) ∧
    (∀ (st2 : OverlayState) (s : DragStart) (e2 : PointerEvent) (ok2 : Bool),
      st2.submitted = false → st2.dragging = true → st2.start = some s →
      ((onPointerUp dpr st2 e2 ok2).1.submitted = false ↔
        (max s.screenX e2.screenX - min s.screenX e2.screenX < 5 ∨
         max s.screenY e2.screenY - min s.screenY e2.screenY < 5) ∨ ok2 = false)) := by
  refine ⟨?_, ?_, ?_, ?_, ?_⟩
  · unfold onPointerUp
    rw [h]
    rfl
  · intro d hb
    unfold onPointerDown
    rw [if_neg (by simp [hb])]
  · intro d hb
    unfold onPointerDown
    rw [if_pos hb]
  · intro m
    unfold onPointerMove
    by_cases hd : st.dragging = false
    · rw [if_pos hd]
    · rw [if_neg hd]
      cases st.start with
      | none => rfl
      | some s => rfl
  · intro st2 s e2 ok2 hsub hdrag hstart
    by_cases hsmall : max s.screenX e2.screenX - min s.screenX e2.screenX < 5 ∨
        max s.screenY e2.screenY - min s.screenY e2.screenY < 5
    · rw [onPointerUp_discard_eq dpr st2 e2 ok2 s hsub hdrag hstart hsmall]
      simp [initialOverlay, hsmall]
    · rw [not_or, not_lt, not_lt] at hsmall
      cases ok2 with
      | true =>
        rw [onPointerUp_submit_eq dpr st2 e2 s hsub hdrag hstart hsmall.1 hsmall.2]
        simp only [not_or, not_lt]
        constructor
        · intro hfalse
          cases hfalse
        · rintro ((hlt | hlt) | hne)
          · exact absurd hlt (not_lt.mpr hsmall.1)
          · exact absurd hlt (not_lt.mpr hsmall.2)
          · cases hne
      | false =>
        rw [onPointerUp_fail_eq dpr st2 e2 s hsub hdrag hstart hsmall.1 hsmall.2]
        simp [initialOverlay]

/-- Witness for C7: with the guard set, a duplicate pointer-up on a
concrete state is ignored. -/
theorem submit_guard_single_shot_witness :
    onPointerUp 1
      { dragging := false, start := none, rect := none, submitted := true }
      { button := 0, clientX := 3, clientY := 2, screenX := 13, screenY := 12 }
      true =
      ({ dragging := false, start := none, rect := none, submitted := true }, none) :=
  (submit_guard_single_shot 1
    { dragging := false, start := none, rect := none, submitted := true }
    { button := 0, clientX := 3, clientY := 2, screenX := 13, screenY := 12 }
    true rfl).1

/-! C9 — submitted selections are the rounded normalized rectangle. -/

/-- Claim C9: every selection the overlay submits carries integer x, y,
width and height obtained by JavaScript Math.round (round half up) of the
normalized global rectangle, while devicePixelRatio is forwarded
unrounded. -/
theorem submitted_selection_rounded
    (dpr : ℚ) (st : OverlayState) (e : PointerEvent) (s : DragStart)
    (hsub : st.submitted = false) (hdrag : st.dragging = true)
    (hstart : st.start = some s)
    (hw : 5 ≤ max s.screenX e.screenX - min s.screenX e.screenX)
    (hh : 5 ≤ max s.screenY e.screenY - min s.screenY e.screenY) :
    (onPointerUp dpr st e true).2 =
      some { x := jsRound (min s.screenX e.screenX),
             y := jsRound (min s.screenY e.screenY),
             width := jsRound (max s.screenX e.screenX - min s.screenX e.screenX),
             height := jsRound (max s.screenY e.screenY - min s.screenY e.screenY),
             devicePixelRatio := dpr } ∧
    ∀ sel, (onPointerUp dpr st e true).2 = some sel →
      sel.devicePixelRatio = dpr := by
  rw [onPointerUp_submit_eq dpr st e s hsub hdrag hstart hw hh]
  refine ⟨rfl, ?_⟩
  intro sel hsel
  cases hsel
  rfl

/-- Witness for C9, with fractional endpoints: a drag from (10.5, 10.5) to
(40.25, 30.5) submits x = 11 (10.5 rounds half up), y = 11, width = 30
(29.75 rounds up), height = 20, at devicePixelRatio 3/2 unrounded. -/
theorem submitted_selection_rounded_witness :
    (onPointerUp (3 / 2)
      { dragging := true,
        start := some { clientX := 0, clientY := 0,
                        screenX := 21 / 2, screenY := 21 / 2 },
        rect := none, submitted := false }
      { button := 0, clientX := 30, clientY := 20,
        screenX := 161 / 4, screenY := 61 / 2 }
      true).2 =
      some { x := 11, y := 11, width := 30, height := 20,
             devicePixelRatio := 3 / 2 } := by
  have h := (submitted_selection_rounded (3 / 2)
    { dragging := true,
      start := some { clientX := 0, clientY := 0,
                      screenX := 21 / 2, screenY := 21 / 2 },
      rect := none, submitted := false }
    { button := 0, clientX := 30, clientY := 20,
      screenX := 161 / 4, screenY := 61 / 2 }
    { clientX := 0, clientY := 0, screenX := 21 / 2, screenY := 21 / 2 }
    rfl rfl rfl
    (by with_unfolding_all decide) (by with_unfolding_all decide)).1
  rw [h]
  congr 1
  with_unfolding_all decide

/-! Main-actor states used by the capture and export theorems. -/

/-- A main-window state with an active fresh session, idle. -/
def exIdleState : MainState :=
  { session := some exSession, recapOpen := false, endConfirmOpen := false,
    exportError := none, isRegionCapturing := false }

/-- A main-window state with an active fresh session, awaiting the
overlay (isRegionCapturing set). -/
def exCapturingState : MainState :=
  { session := some exSession, recapOpen := false, endConfirmOpen := false,
    exportError := none, isRegionCapturing := true }

/-- A pipeline environment whose monitor enumeration rejects. -/
def exFailEnv : PipelineEnv :=
  { monitors := none, screenshot := fun _ => none, crop := fun _ _ => none }

/-- A pipeline environment in which every step succeeds on the worked
two-monitor layout. -/
def exOkEnv : PipelineEnv :=
  { monitors := some [exMon1, exMon2],
    screenshot := fun _ => some "/tmp/full.png",
    crop := fun _ _ => some "/tmp/cropped.png" }

/-! C4 — the capturing flag does not cover the crop pipeline. -/

/-- Counterexample to C4 as stated: the very first statement of the
region-selected listener clears isRegionCapturing, so from a capturing
state the state in which the crop pipeline then runs is not capturing,
and a second openRegionCapture issued during the pipeline is not a no-op
(it proceeds and changes the state). -/
theorem capturing_cleared_during_pipeline_cex :
    (regionSelectedReceive exCapturingState).isRegionCapturing = false ∧
    openRegionCapture (regionSelectedReceive exCapturingState) "macos" none true
      "id2" 5 ≠ regionSelectedReceive exCapturingState := by
  with_unfolding_all decide

/-- Amended C4: the capturing state holds from openRegionCapture until
the overlay responds — while isRegionCapturing is set a second
openRegionCapture is a no-op — but on receipt of a submitted selection
the listener clears the flag at once, before the crop pipeline runs, and
the handler also ends with the flag cleared. -/
theorem capturing_guard_until_overlay_responds
    (st : MainState) (platform : String) (snip : Option String)
    (overlayOk : Bool) (freshId : String) (now : Int)
    (sel : RegionSelection) (env : PipelineEnv)
    (h : st.isRegionCapturing = true) :
    openRegionCapture st platform snip overlayOk freshId now = st ∧
    (regionSelectedReceive st).isRegionCapturing = false ∧
    (regionSelectedHandler sel env freshId now st).isRegionCapturing = false := by
  refine ⟨?_, rfl, ?_⟩
  · unfold openRegionCapture
    rw [if_pos (by rw [h])]
  · dsimp only [regionSelectedHandler, regionSelectedReceive]
    cases st.session with
    | none => rfl
    | some s =>
      cases pipelineOutcome sel env freshId now with
      | error e => rfl
      | ok o =>
        cases o with
        | none => rfl
        | some n => rfl

/-- Witness for the amended C4, at the concrete capturing state: a second
openRegionCapture is the identity and the listener clears the flag on
receipt. -/
theorem capturing_guard_until_overlay_responds_witness :
    openRegionCapture exCapturingState "macos" none true "id2" 5 =
      exCapturingState ∧
    (regionSelectedReceive exCapturingState).isRegionCapturing = false ∧
    (regionSelectedHandler exSel exOkEnv "id2" 5
      exCapturingState).isRegionCapturing = false :=
  capturing_guard_until_overlay_responds exCapturingState "macos" none true
    "id2" 5 exSel exOkEnv rfl

/-! C5 — exceptions in the crop pipeline leave the session unchanged. -/

/-- Claim C5: when any awaited step of the region-selected handling
throws (monitor enumeration, screenshot or crop rejects), the session is
exactly as before and the actor ends idle; the handler always ends with
the capturing flag cleared; and in general the session is either
unchanged or has exactly the screenshot note of a fully successful
pipeline prepended (and capped), so a note is appended only when every
step succeeds. -/
theorem regionSelected_exception_safe
    (sel : RegionSelection) (env : PipelineEnv) (freshId : String) (now : Int)
    (st : MainState) :
    (pipelineOutcome sel env freshId now = .error () →
      (regionSelectedHandler sel env freshId now st).session = st.session) ∧
    (regionSelectedHandler sel env freshId now st).isRegionCapturing = false ∧
    (∀ s, st.session = some s →
      ((regionSelectedHandler sel env freshId now st).session = st.session ∨
       ∃ monitors m mx my fullPath croppedPath,
         env.monitors = some monitors ∧
         pickMonitor sel monitors = some (m, mx, my) ∧
         env.screenshot m.id = some fullPath ∧
         env.crop fullPath (selectionForCrop sel mx my) = some croppedPath ∧
         (regionSelectedHandler sel env freshId now st).session =
           some { s with notes :=
             ({ id := freshId, timestamp := now, type := .screenshot,
                text := croppedPath } :: s.notes).take 200 })) := by
  refine ⟨?_, ?_, ?_⟩
  · intro herr
    dsimp only [regionSelectedHandler, regionSelectedReceive]
    rw [herr]
    cases st.session with
    | none => rfl
    | some s => rfl
  · dsimp only [regionSelectedHandler, regionSelectedReceive]
    cases st.session with
    | none => rfl
    | some s =>
      cases pipelineOutcome sel env freshId now with
      | error e => rfl
      | ok o => cases o with
        | none => rfl
        | some n => rfl
  · intro s hs
    dsimp only [regionSelectedHandler, regionSelectedReceive]
    rw [hs]
    cases hout : pipelineOutcome sel env freshId now with
    | error e => exact Or.inl rfl
    | ok o =>
      cases o with
      | none => exact Or.inl rfl
      | some n =>
        unfold pipelineOutcome at hout
        cases hmon : env.monitors with
        | none => rw [hmon] at hout; simp at hout
        | some monitors =>
          rw [hmon] at hout
          dsimp only at hout
          by_cases hemp : monitors.isEmpty
          · simp [hemp] at hout
          · rw [if_neg hemp] at hout
            cases hpick : pickMonitor sel monitors with
            | none => rw [hpick] at hout; simp at hout
            | some triple =>
              obtain ⟨m, mx, my⟩ := triple
              rw [hpick] at hout
              dsimp only at hout
              cases hshot : env.screenshot m.id with
              | none => rw [hshot] at hout; simp at hout
              | some fullPath =>
                rw [hshot] at hout
                dsimp only at hout
                cases hcrop : env.crop fullPath (selectionForCrop sel mx my) with
                | none => rw [hcrop] at hout; simp at hout
                | some croppedPath =>
                  rw [hcrop] at hout
                  dsimp only at hout
                  have hn : n = Note.mk freshId now .screenshot croppedPath := by
                    injection hout with h1
                    exact (Option.some.inj h1).symm
                  subst hn
                  exact Or.inr ⟨monitors, m, mx, my, fullPath, croppedPath,
                    rfl, hpick, hshot, hcrop, rfl⟩

/-- Witness for C5: with a rejecting monitor enumeration the session of
the concrete capturing state is untouched and the actor ends idle. -/
theorem regionSelected_exception_safe_witness :
    (regionSelectedHandler exSel exFailEnv "id3" 7 exCapturingState).session =
      exCapturingState.session ∧
    (regionSelectedHandler exSel exFailEnv "id3" 7
      exCapturingState).isRegionCapturing = false :=
  ⟨(regionSelected_exception_safe exSel exFailEnv "id3" 7 exCapturingState).1 rfl,
   (regionSelected_exception_safe exSel exFailEnv "id3" 7 exCapturingState).2.1⟩

/-! C6 — a failed export leaves the session intact. -/

/-- Claim C6: a failed export leaves the session value untouched — notes,
charter, tester name, duration and start instant all unchanged, the
session still active for a retry — and the session is discarded (reset to
the start state) only on a successful export. -/
theorem export_failure_keeps_session
    (st : MainState) (s : Session) (h : st.session = some s) :
    (performEndSession st false).session = some s ∧
    (∃ s2, (performEndSession st false).session = some s2 ∧
      s2.notes = s.notes ∧ s2.charter = s.charter ∧
      s2.testerName = s.testerName ∧ s2.durationMinutes = s.durationMinutes ∧
      s2.startedAt = s.startedAt) ∧
    (performEndSession st true).session = none ∧
    (∀ ok, (performEndSession st ok).session = none → ok = true) := by
  have hfail : performEndSession st false =
      { st with
        exportError :=
          some "Export failed. Please check the console for details. Your session is still active."
        endConfirmOpen := false } := by
    unfold performEndSession
    rw [h]
    rfl
  have hok : performEndSession st true =
      { st with endConfirmOpen := false, recapOpen := false,
                isRegionCapturing := false, session := none } := by
    unfold performEndSession
    rw [h]
    rfl
  refine ⟨by rw [hfail]; exact h, ⟨s, by rw [hfail]; exact h, rfl, rfl, rfl, rfl, rfl⟩,
    by rw [hok], ?_⟩
  intro ok hnone
  cases ok with
  | true => rfl
  | false =>
    rw [hfail] at hnone
    simp only at hnone
    rw [h] at hnone
    cases hnone

/-- Witness for C6 at the concrete idle state: export failure keeps the
session, export success discards it. -/
theorem export_failure_keeps_session_witness :
    (performEndSession exIdleState false).session = some exSession ∧
    (performEndSession exIdleState true).session = none :=
  ⟨(export_failure_keeps_session exIdleState exSession rfl).1,
   (export_failure_keeps_session exIdleState exSession rfl).2.2.1⟩

end RapidReporter
